import Mathlib

/-!
Verification of the LTI aircraft-model core (state-space builders, aircraft
composite, reward scoring) against its natural-language specification.

All scalar arithmetic of the source is embedded over the rationals; matrices
built with numpy arrays are embedded as lists of rows.  A second family of
definitions with suffix `E` re-runs the builders with checked division
(Python float division by zero raises ZeroDivisionError), so that the
error-policy sentences of the spec become statable.
-/

/-- Symmetric force-coefficient derivatives read by the builders: cx has
fields u, a, o, de. -/
structure CxGroup where
  u : ℚ
  a : ℚ
  o : ℚ
  de : ℚ
deriving DecidableEq

/-- Symmetric derivatives cz with fields u, a, a_dot, o, q, de. -/
structure CzGroup where
  u : ℚ
  a : ℚ
  a_dot : ℚ
  o : ℚ
  q : ℚ
  de : ℚ
deriving DecidableEq

/-- Symmetric pitch-moment derivatives cm with fields u, a, a_dot, o, q, de. -/
structure CmGroup where
  u : ℚ
  a : ℚ
  a_dot : ℚ
  o : ℚ
  q : ℚ
  de : ℚ
deriving DecidableEq

/-- Asymmetric side-force derivatives cy with fields b, p, r, dr. -/
structure CyGroup where
  b : ℚ
  p : ℚ
  r : ℚ
  dr : ℚ
deriving DecidableEq

/-- Asymmetric roll-moment derivatives cl with fields b, p, r, da, dr. -/
structure ClGroup where
  b : ℚ
  p : ℚ
  r : ℚ
  da : ℚ
  dr : ℚ
deriving DecidableEq

/-- Asymmetric yaw-moment derivatives cn with fields b, p, r, da, dr. -/
structure CnGroup where
  b : ℚ
  p : ℚ
  r : ℚ
  da : ℚ
  dr : ℚ
deriving DecidableEq

/-- The symmetric data block: chord, relative mass, pitch inertia ratio and
the three symmetric derivative groups, exactly the fields the symmetric
builder reads from the loaded aircraft data. -/
structure SymmetricData where
  c_bar : ℚ
  mu_c : ℚ
  ky_2 : ℚ
  cx : CxGroup
  cz : CzGroup
  cm : CmGroup
deriving DecidableEq

/-- The asymmetric data block: span, relative mass, trim lift coefficient,
inertia ratios and the three asymmetric derivative groups, exactly the
fields the asymmetric builder reads. -/
structure AsymmetricData where
  b : ℚ
  mu_b : ℚ
  c_l : ℚ
  kx_2 : ℚ
  kz_2 : ℚ
  kxz : ℚ
  cy : CyGroup
  cl : ClGroup
  cn : CnGroup
deriving DecidableEq

/-- Aircraft data: airspeed plus the two optional blocks. -/
structure AircraftData where
  v : ℚ
  symmetric : Option SymmetricData
  asymmetric : Option AsymmetricData
deriving DecidableEq

/-- A matrix as a list of rows of rationals (the embedding of a 2-d
numpy array). -/
abbrev Mat : Type := List (List ℚ)

/-- Entry i j of a matrix, with 0 as the out-of-range default. -/
def entry (m : Mat) (i j : Nat) : ℚ :=
  (m.getD i []).getD j 0

/-- The n-by-n identity matrix, as built by numpy eye. -/
def eyeM (n : Nat) : Mat :=
  (List.range n).map (fun i => (List.range n).map (fun j => if i = j then 1 else 0))

/-- The n-by-m zero matrix, as built by numpy zeros. -/
def zerosM (n m : Nat) : Mat :=
  List.replicate n (List.replicate m 0)

/-- Embedding of the static method build_a of class Symmetric: the
longitudinal A matrix, with the let-bound scalars of the source. -/
def Symmetric.build_a (v : ℚ) (d : SymmetricData) : Mat :=
  let c_bar := d.c_bar
  let mu_c := d.mu_c
  let ky_2 := d.ky_2
  let cx := d.cx
  let cz := d.cz
  let cm := d.cm
  let v_c := v / c_bar
  let mu_c_cz_a := 2 * mu_c - cz.a_dot
  let cm_a_mu_c := cm.a_dot / (2 * mu_c - cz.a_dot)
  let mu_c_ky_2 := 2 * mu_c * ky_2
  let xu := v_c * cx.u / (2 * mu_c)
  let xa := v_c * cx.a / (2 * mu_c)
  let xt := v_c * cz.o / (2 * mu_c)
  let zu := v_c * cz.u / mu_c_cz_a
  let za := v_c * cz.a / mu_c_cz_a
  let zt := v_c * cx.o / mu_c_cz_a
  let zq := v_c * (2 * mu_c + cz.q) / mu_c_cz_a
  let mu := v_c * (cm.u + cz.u * cm_a_mu_c) / mu_c_ky_2
  let ma := v_c * (cm.a + cz.a * cm_a_mu_c) / mu_c_cz_a
  let mt := - v_c * (cx.o * cm_a_mu_c) / mu_c_ky_2
  let mq := v_c * (cm.q + cm.a_dot * (2 * mu_c + cz.q) / mu_c_cz_a) / mu_c_cz_a
  [[xu, xa, xt, 0],
   [zu, za, zt, zq],
   [0, 0, 0, v_c],
   [mu, ma, mt, mq]]

/-- Embedding of the static method build_b of class Symmetric: the
longitudinal B column. -/
def Symmetric.build_b (v : ℚ) (d : SymmetricData) : Mat :=
  let c_bar := d.c_bar
  let mu_c := d.mu_c
  let ky_2 := d.ky_2
  let cx := d.cx
  let cz := d.cz
  let cm := d.cm
  let v_c := v / c_bar
  let mu_c_cz_a := 2 * mu_c - cz.a_dot
  let x_de := v_c * cx.de / (2 * mu_c)
  let z_de := v_c * cz.de / mu_c_cz_a
  let m_de := v_c * (cm.de + cz.de * cm.a_dot / mu_c_cz_a) / (2 * mu_c * ky_2)
  [[x_de], [z_de], [0], [m_de]]

/-- Embedding of the static method build_a of class Asymmetric.  The source
lines for lp and lr are chained assignments (lp = v_b = expression), so lp
and lr receive the expression without the v_b factor and v_b itself is
overwritten; the later entries nb, n_p, nr and the 2 * v_b of the phi row
then read the overwritten v_b.  The shadowing lets below reproduce that. -/
def Asymmetric.build_a (v : ℚ) (d : AsymmetricData) : Mat :=
  let b := d.b
  let mu_b := d.mu_b
  let c_l := d.c_l
  let kx_2 := d.kx_2
  let kz_2 := d.kz_2
  let kxz := d.kxz
  let cy := d.cy
  let cl := d.cl
  let cn := d.cn
  let v_b := v / b
  let mu_b_k := 4 * mu_b * (kx_2 * kz_2 - kxz ^ 2)
  let yb := v_b * cy.b / (2 * mu_b)
  let yphi := v_b * c_l / (2 * mu_b)
  let yp := v_b * cy.p / (2 * mu_b)
  let yr := v_b * (cy.r - 4 * mu_b) / (2 * mu_b)
  let lb := v_b * (cl.b * kz_2 + cn.b * kxz) / mu_b_k
  let v_b := (cl.p * kz_2 + cn.p * kxz) / mu_b_k
  let lp := v_b
  let v_b := (cl.r * kz_2 + cn.r * kxz) / mu_b_k
  let lr := v_b
  let nb := v_b * (cl.b * kxz + cn.b * kx_2) / mu_b_k
  let n_p := v_b * (cl.p * kxz + cn.p * kx_2) / mu_b_k
  let nr := v_b * (cl.r * kxz + cn.r * kx_2) / mu_b_k
  [[yb, yphi, yp, yr],
   [0, 0, 2 * v_b, 0],
   [lb, 0, lp, lr],
   [nb, 0, n_p, nr]]

/-- Embedding of the static method build_b of class Asymmetric.  Note the
source computes its scaling ratio as v / mu_b here, unlike the v / b
of build_a. -/
def Asymmetric.build_b (v : ℚ) (d : AsymmetricData) : Mat :=
  let mu_b := d.mu_b
  let kx_2 := d.kx_2
  let kz_2 := d.kz_2
  let kxz := d.kxz
  let cy := d.cy
  let cl := d.cl
  let cn := d.cn
  let v_b := v / mu_b
  let mu_b_k := 4 * mu_b * (kx_2 * kz_2 - kxz ^ 2)
  let y_dr := v_b * cy.dr / (2 * mu_b)
  let l_da := v_b * (cl.da * kz_2 + cn.da * kxz) / mu_b_k
  let l_dr := v_b * (cl.dr * kz_2 + cn.dr * kxz) / mu_b_k
  let n_da := v_b * (cl.da * kxz + cn.da * kx_2) / mu_b_k
  let n_dr := v_b * (cl.dr * kxz + cn.dr * kx_2) / mu_b_k
  [[0, y_dr],
   [0, 0],
   [l_da, l_dr],
   [n_da, n_dr]]

/-- The paragraph 4.2 A-table of the spec, transcribed entry by entry with
its derived scalars v_c, mu_c_cz_a, cm_a_mu_c, mu_c_ky_2. -/
def symmetricSpecA (v : ℚ) (d : SymmetricData) : Mat :=
  let v_c := v / d.c_bar
  let mu_c_cz_a := 2 * d.mu_c - d.cz.a_dot
  let cm_a_mu_c := d.cm.a_dot / mu_c_cz_a
  let mu_c_ky_2 := 2 * d.mu_c * d.ky_2
  [[v_c * d.cx.u / (2 * d.mu_c), v_c * d.cx.a / (2 * d.mu_c),
    v_c * d.cz.o / (2 * d.mu_c), 0],
   [v_c * d.cz.u / mu_c_cz_a, v_c * d.cz.a / mu_c_cz_a,
    v_c * d.cx.o / mu_c_cz_a, v_c * (2 * d.mu_c + d.cz.q) / mu_c_cz_a],
   [0, 0, 0, v_c],
   [v_c * (d.cm.u + d.cz.u * cm_a_mu_c) / mu_c_ky_2,
    v_c * (d.cm.a + d.cz.a * cm_a_mu_c) / mu_c_cz_a,
    - v_c * d.cx.o * cm_a_mu_c / mu_c_ky_2,
    v_c * (d.cm.q + d.cm.a_dot * (2 * d.mu_c + d.cz.q) / mu_c_cz_a) / mu_c_cz_a]]

/-- The paragraph 4.3 A-table of the spec, with the ratio v_b = v / b used
uniformly.  The rows nb, n_p, nr are the mirror of lb, lp, lr described by
the spec: kx_2 takes the place of kz_2 and kxz is kept, so the cl
derivative pairs with kxz and the cn derivative with kx_2. -/
def asymmetricSpecA (v : ℚ) (d : AsymmetricData) : Mat :=
  let v_b := v / d.b
  let mu_b_k := 4 * d.mu_b * (d.kx_2 * d.kz_2 - d.kxz ^ 2)
  [[v_b * d.cy.b / (2 * d.mu_b), v_b * d.c_l / (2 * d.mu_b),
    v_b * d.cy.p / (2 * d.mu_b), v_b * (d.cy.r - 4 * d.mu_b) / (2 * d.mu_b)],
   [0, 0, 2 * v_b, 0],
   [v_b * (d.cl.b * d.kz_2 + d.cn.b * d.kxz) / mu_b_k, 0,
    v_b * (d.cl.p * d.kz_2 + d.cn.p * d.kxz) / mu_b_k,
    v_b * (d.cl.r * d.kz_2 + d.cn.r * d.kxz) / mu_b_k],
   [v_b * (d.cl.b * d.kxz + d.cn.b * d.kx_2) / mu_b_k, 0,
    v_b * (d.cl.p * d.kxz + d.cn.p * d.kx_2) / mu_b_k,
    v_b * (d.cl.r * d.kxz + d.cn.r * d.kx_2) / mu_b_k]]

/-- The paragraph 4.3 B-table of the spec, with the observed ratio
v / mu_b that the spec records for the asymmetric B matrix. -/
def asymmetricSpecB (v : ℚ) (d : AsymmetricData) : Mat :=
  let ratio := v / d.mu_b
  let mu_b_k := 4 * d.mu_b * (d.kx_2 * d.kz_2 - d.kxz ^ 2)
  [[0, ratio * d.cy.dr / (2 * d.mu_b)],
   [0, 0],
   [ratio * (d.cl.da * d.kz_2 + d.cn.da * d.kxz) / mu_b_k,
    ratio * (d.cl.dr * d.kz_2 + d.cn.dr * d.kxz) / mu_b_k],
   [ratio * (d.cl.da * d.kxz + d.cn.da * d.kx_2) / mu_b_k,
    ratio * (d.cl.dr * d.kxz + d.cn.dr * d.kx_2) / mu_b_k]]

/-- Claim C2: for every symmetric data block with mu_c_cz_a and mu_c_ky_2
nonzero, the A matrix of the symmetric builder equals the paragraph 4.2
table row for row, and in particular the theta-row q-column entry equals
exactly v / c_bar, independent of every aerodynamic derivative value. -/
theorem Symmetric.build_a_matches_spec_table (v : ℚ) (d : SymmetricData)
    (h1 : 2 * d.mu_c - d.cz.a_dot ≠ 0) (h2 : 2 * d.mu_c * d.ky_2 ≠ 0) :
    Symmetric.build_a v d = symmetricSpecA v d ∧
    entry (Symmetric.build_a v d) 2 3 = v / d.c_bar := by
  constructor
  · simp only [Symmetric.build_a, symmetricSpecA, List.cons.injEq, and_true]
    repeat' apply And.intro
    all_goals ring
  · rfl

/-- Witness for claim C2 at a concrete symmetric data block. -/
theorem Symmetric.build_a_matches_spec_table_witness :
    (2 * (1 : ℚ) - 1 ≠ 0) ∧ (2 * (1 : ℚ) * 1 ≠ 0) ∧
    (Symmetric.build_a 3
        { c_bar := 2, mu_c := 1, ky_2 := 1,
          cx := { u := 1, a := 1, o := 1, de := 1 },
          cz := { u := 1, a := 1, a_dot := 1, o := 1, q := 1, de := 1 },
          cm := { u := 1, a := 1, a_dot := 1, o := 1, q := 1, de := 1 } } =
      symmetricSpecA 3
        { c_bar := 2, mu_c := 1, ky_2 := 1,
          cx := { u := 1, a := 1, o := 1, de := 1 },
          cz := { u := 1, a := 1, a_dot := 1, o := 1, q := 1, de := 1 },
          cm := { u := 1, a := 1, a_dot := 1, o := 1, q := 1, de := 1 } } ∧
     entry (Symmetric.build_a 3
        { c_bar := 2, mu_c := 1, ky_2 := 1,
          cx := { u := 1, a := 1, o := 1, de := 1 },
          cz := { u := 1, a := 1, a_dot := 1, o := 1, q := 1, de := 1 },
          cm := { u := 1, a := 1, a_dot := 1, o := 1, q := 1, de := 1 } }) 2 3 =
      3 / 2) :=
  ⟨by norm_num, by norm_num,
   Symmetric.build_a_matches_spec_table 3 _ (by norm_num) (by norm_num)⟩

/-- A concrete asymmetric data block exhibiting the chained-assignment slip
in build_a of class Asymmetric. -/
def asymBugData : AsymmetricData :=
  { b := 1, mu_b := 1/2, c_l := 0, kx_2 := 1, kz_2 := 1, kxz := 0,
    cy := { b := 0, p := 0, r := 0, dr := 0 },
    cl := { b := 1, p := 1, r := 1, da := 0, dr := 0 },
    cn := { b := 0, p := 0, r := 0, da := 0, dr := 0 } }

/-- Claim C1: the source A matrix of the asymmetric builder does not match
the paragraph 4.3 table.  At airspeed 2 the ratio v / b is 2, yet the code
produces lp and lr without that factor (the chained assignments drop it)
and the phi row carries 2 times the overwritten v_b instead of 2 times
v / b; the table instead has lp = lr = 1 scaled by 2 and phi entry 4. -/
theorem Asymmetric.build_a_code_bug_eval :
    Asymmetric.build_a 2 asymBugData =
      [[0, 0, 0, -4], [0, 0, 1, 0], [1, 0, 1/2, 1/2], [0, 0, 0, 0]] ∧
    asymmetricSpecA 2 asymBugData =
      [[0, 0, 0, -4], [0, 0, 4, 0], [1, 0, 1, 1], [0, 0, 0, 0]] ∧
    Asymmetric.build_a 2 asymBugData ≠ asymmetricSpecA 2 asymBugData := by
  refine ⟨?_, ?_, ?_⟩ <;>
    norm_num [Asymmetric.build_a, asymmetricSpecA, asymBugData, List.cons.injEq]

/-- Claim C4: for every asymmetric data block with mu_b_k and mu_b nonzero,
the B matrix of the asymmetric builder is 4 by 2 and equals the paragraph
4.3 B-table built with the observed ratio v / mu_b. -/
theorem Asymmetric.build_b_matches_spec_table (v : ℚ) (d : AsymmetricData)
    (h1 : 4 * d.mu_b * (d.kx_2 * d.kz_2 - d.kxz ^ 2) ≠ 0) (h2 : d.mu_b ≠ 0) :
    Asymmetric.build_b v d = asymmetricSpecB v d ∧
    (Asymmetric.build_b v d).map List.length = [2, 2, 2, 2] := by
  exact ⟨rfl, rfl⟩

/-- Witness for claim C4 at a concrete asymmetric data block. -/
theorem Asymmetric.build_b_matches_spec_table_witness :
    (4 * (1 : ℚ) * (1 * 1 - 0 ^ 2) ≠ 0) ∧ ((1 : ℚ) ≠ 0) ∧
    (Asymmetric.build_b 3
        { b := 2, mu_b := 1, c_l := 1, kx_2 := 1, kz_2 := 1, kxz := 0,
          cy := { b := 1, p := 1, r := 1, dr := 1 },
          cl := { b := 1, p := 1, r := 1, da := 1, dr := 1 },
          cn := { b := 1, p := 1, r := 1, da := 1, dr := 1 } } =
      asymmetricSpecB 3
        { b := 2, mu_b := 1, c_l := 1, kx_2 := 1, kz_2 := 1, kxz := 0,
          cy := { b := 1, p := 1, r := 1, dr := 1 },
          cl := { b := 1, p := 1, r := 1, da := 1, dr := 1 },
          cn := { b := 1, p := 1, r := 1, da := 1, dr := 1 } }) :=
  ⟨by norm_num, by norm_num,
   (Asymmetric.build_b_matches_spec_table 3 _ (by norm_num) (by norm_num)).1⟩

/-- The error outcomes relevant to the claims.  ZeroDivisionError and
ValueError are the errors the source can actually raise; the remaining
constructors name the error taxonomy of the spec (paragraph 7), which has
no counterpart in the source, so that the error-policy claims are
statable. -/
inductive PyErr where
  | zeroDivisionError : PyErr
  | valueError : String → PyErr
  | singularModelError : PyErr
  | invalidModelError : PyErr
  | configurationError : PyErr
  | dimensionError : PyErr
  | unknownRewardKind : PyErr
deriving DecidableEq

/-- Python float division: raises ZeroDivisionError on a zero denominator,
otherwise returns the quotient. -/
def divE (x y : ℚ) : Except PyErr ℚ :=
  if y = 0 then Except.error PyErr.zeroDivisionError else Except.ok (x / y)

/-- build_a of class Symmetric re-run with checked division, in the
statement order of the source, so that the first zero denominator
encountered determines the raised error. -/
def Symmetric.build_aE (v : ℚ) (d : SymmetricData) : Except PyErr Mat := do
  let c_bar := d.c_bar
  let mu_c := d.mu_c
  let ky_2 := d.ky_2
  let cx := d.cx
  let cz := d.cz
  let cm := d.cm
  let v_c ← divE v c_bar
  let mu_c_cz_a := 2 * mu_c - cz.a_dot
  let cm_a_mu_c ← divE cm.a_dot (2 * mu_c - cz.a_dot)
  let mu_c_ky_2 := 2 * mu_c * ky_2
  let xu ← divE (v_c * cx.u) (2 * mu_c)
  let xa ← divE (v_c * cx.a) (2 * mu_c)
  let xt ← divE (v_c * cz.o) (2 * mu_c)
  let zu ← divE (v_c * cz.u) mu_c_cz_a
  let za ← divE (v_c * cz.a) mu_c_cz_a
  let zt ← divE (v_c * cx.o) mu_c_cz_a
  let zq ← divE (v_c * (2 * mu_c + cz.q)) mu_c_cz_a
  let mu ← divE (v_c * (cm.u + cz.u * cm_a_mu_c)) mu_c_ky_2
  let ma ← divE (v_c * (cm.a + cz.a * cm_a_mu_c)) mu_c_cz_a
  let mt0 ← divE (v_c * (cx.o * cm_a_mu_c)) mu_c_ky_2
  let mqInner ← divE (cm.a_dot * (2 * mu_c + cz.q)) mu_c_cz_a
  let mq ← divE (v_c * (cm.q + mqInner)) mu_c_cz_a
  pure [[xu, xa, xt, 0],
        [zu, za, zt, zq],
        [0, 0, 0, v_c],
        [mu, ma, - mt0, mq]]

/-- build_a of class Asymmetric re-run with checked division, in the
statement order of the source, keeping the chained-assignment overwrite
of v_b. -/
def Asymmetric.build_aE (v : ℚ) (d : AsymmetricData) : Except PyErr Mat := do
  let b := d.b
  let mu_b := d.mu_b
  let c_l := d.c_l
  let kx_2 := d.kx_2
  let kz_2 := d.kz_2
  let kxz := d.kxz
  let cy := d.cy
  let cl := d.cl
  let cn := d.cn
  let v_b ← divE v b
  let mu_b_k := 4 * mu_b * (kx_2 * kz_2 - kxz ^ 2)
  let yb ← divE (v_b * cy.b) (2 * mu_b)
  let yphi ← divE (v_b * c_l) (2 * mu_b)
  let yp ← divE (v_b * cy.p) (2 * mu_b)
  let yr ← divE (v_b * (cy.r - 4 * mu_b)) (2 * mu_b)
  let lb ← divE (v_b * (cl.b * kz_2 + cn.b * kxz)) mu_b_k
  let v_b ← divE (cl.p * kz_2 + cn.p * kxz) mu_b_k
  let lp := v_b
  let v_b ← divE (cl.r * kz_2 + cn.r * kxz) mu_b_k
  let lr := v_b
  let nb ← divE (v_b * (cl.b * kxz + cn.b * kx_2)) mu_b_k
  let n_p ← divE (v_b * (cl.p * kxz + cn.p * kx_2)) mu_b_k
  let nr ← divE (v_b * (cl.r * kxz + cn.r * kx_2)) mu_b_k
  pure [[yb, yphi, yp, yr],
        [0, 0, 2 * v_b, 0],
        [lb, 0, lp, lr],
        [nb, 0, n_p, nr]]

/-- Claim C3, amended: the builders contain no singularity guard, so a zero
critical denominator is only hit when the corresponding division is
evaluated, and what is raised there is ZeroDivisionError.  For the
symmetric builder this covers both mu_c_cz_a = 0 and mu_c_ky_2 = 0; for
the asymmetric builder, mu_b_k = 0. -/
theorem build_aE_zero_denominator_raises (v : ℚ) (sd : SymmetricData)
    (ad : AsymmetricData)
    (h1 : 2 * sd.mu_c - sd.cz.a_dot = 0 ∨ 2 * sd.mu_c * sd.ky_2 = 0)
    (h2 : 4 * ad.mu_b * (ad.kx_2 * ad.kz_2 - ad.kxz ^ 2) = 0) :
    Symmetric.build_aE v sd = Except.error PyErr.zeroDivisionError ∧
    Asymmetric.build_aE v ad = Except.error PyErr.zeroDivisionError := by
  constructor
  · by_cases hc : sd.c_bar = 0
    · simp [Symmetric.build_aE, divE, hc, bind, Except.bind]
    · rcases h1 with h | h
      · simp [Symmetric.build_aE, divE, hc, h, bind, Except.bind]
      · by_cases ha : 2 * sd.mu_c - sd.cz.a_dot = 0
        · simp [Symmetric.build_aE, divE, hc, ha, bind, Except.bind]
        · by_cases hm : sd.mu_c = 0
          · have h2m : 2 * sd.mu_c = 0 := by rw [hm]; ring
            have had : sd.cz.a_dot ≠ 0 := by
              intro hz
              exact ha (by rw [hm, hz]; ring)
            simp [Symmetric.build_aE, divE, hc, ha, h2m, had, bind, Except.bind]
          · have h2m : 2 * sd.mu_c ≠ 0 := by
              intro hz
              exact hm (by linarith [hz])
            simp [Symmetric.build_aE, divE, hc, ha, h2m, h, bind, Except.bind]
  · by_cases hb : ad.b = 0
    · simp [Asymmetric.build_aE, divE, hb, bind, Except.bind]
    · by_cases hm : ad.mu_b = 0
      · have h2m : 2 * ad.mu_b = 0 := by rw [hm]; ring
        simp [Asymmetric.build_aE, divE, hb, h2m, bind, Except.bind]
      · have h2m : 2 * ad.mu_b ≠ 0 := by
          intro hz
          exact hm (by linarith [hz])
        simp [Asymmetric.build_aE, divE, hb, h2m, h2, bind, Except.bind]

/-- An asymmetric data block whose denominator mu_b_k is zero:
kx_2 kz_2 equals kxz squared. -/
def singularAsymData : AsymmetricData :=
  { b := 1, mu_b := 1, c_l := 1, kx_2 := 1, kz_2 := 1, kxz := 1,
    cy := { b := 1, p := 1, r := 1, dr := 1 },
    cl := { b := 1, p := 1, r := 1, da := 1, dr := 1 },
    cn := { b := 1, p := 1, r := 1, da := 1, dr := 1 } }

/-- A symmetric data block whose denominator mu_c_cz_a is zero:
cz.a_dot equals 2 mu_c. -/
def singularSymData : SymmetricData :=
  { c_bar := 1, mu_c := 1, ky_2 := 1,
    cx := { u := 1, a := 1, o := 1, de := 1 },
    cz := { u := 1, a := 1, a_dot := 2, o := 1, q := 1, de := 1 },
    cm := { u := 1, a := 1, a_dot := 1, o := 1, q := 1, de := 1 } }

/-- Counterexample to claim C3 as stated: on a symmetric block with
cz.a_dot = 2 mu_c the builder does not fail with SingularModelError (no
such guard exists in the source; the division itself raises
ZeroDivisionError). -/
theorem Symmetric.build_aE_not_singularModelError :
    Symmetric.build_aE 1 singularSymData ≠
      Except.error PyErr.singularModelError := by
  have hval : Symmetric.build_aE 1 singularSymData =
      Except.error PyErr.zeroDivisionError := by
    norm_num [Symmetric.build_aE, divE, singularSymData, bind, Except.bind]
  rw [hval]
  intro hcontra
  exact PyErr.noConfusion (Except.error.inj hcontra)

/-- Witness for the amended claim C3, at singularSymData and at an
asymmetric block with kx_2 kz_2 = kxz squared. -/
theorem build_aE_zero_denominator_raises_witness :
    (2 * singularSymData.mu_c - singularSymData.cz.a_dot = 0 ∨
      2 * singularSymData.mu_c * singularSymData.ky_2 = 0) ∧
    (4 * singularAsymData.mu_b *
      (singularAsymData.kx_2 * singularAsymData.kz_2 -
        singularAsymData.kxz ^ 2) = 0) ∧
    Symmetric.build_aE 1 singularSymData = Except.error PyErr.zeroDivisionError ∧
    Asymmetric.build_aE 1 singularAsymData =
      Except.error PyErr.zeroDivisionError :=
  ⟨Or.inl (by norm_num [singularSymData]),
   by norm_num [singularAsymData],
   (build_aE_zero_denominator_raises 1 singularSymData singularAsymData
      (Or.inl (by norm_num [singularSymData]))
      (by norm_num [singularAsymData])).1,
   (build_aE_zero_denominator_raises 1 singularSymData singularAsymData
      (Or.inl (by norm_num [singularSymData]))
      (by norm_num [singularAsymData])).2⟩

/-- The state-space value: the stored matrices a and b, the name lists, and
the derived output matrix c and feedthrough matrix d. -/
structure StateSpace where
  a : Mat
  b : Mat
  x_names : List String
  u_names : List String
  c : Mat
  d : Mat
deriving DecidableEq

/-- Embedding of the init method of class StateSpace: stores a, b and the
two name lists, then derives c as the identity sized to the row count of a
and d as the zero matrix with the row count of a and the column count of b.
The source performs no validation of its own: no shape check, no
duplicate-name check, and no error type of its own is defined or raised
(the inherited constructor of the external control library is out of
scope). -/
def StateSpace.init (a b : Mat) (x_names u_names : List String) : StateSpace :=
  { a := a, b := b, x_names := x_names, u_names := u_names,
    c := eyeM a.length, d := zerosM a.length ((b.getD 0 []).length) }

/-- The init of class StateSpace with its (empty) error channel made
explicit: the source raises nothing, so every input produces an ok
instance. -/
def StateSpace.initE (a b : Mat) (x_names u_names : List String) :
    Except PyErr StateSpace :=
  Except.ok (StateSpace.init a b x_names u_names)

/-- Embedding of the init method of class Symmetric: the state names of the
source are u_hat, alpha, theta, q_cv and the input name is de. -/
def Symmetric.model (v : ℚ) (d : SymmetricData) : StateSpace :=
  StateSpace.init (Symmetric.build_a v d) (Symmetric.build_b v d)
    ["u_hat", "alpha", "theta", "q_cv"] ["de"]

/-- Embedding of the init method of class Asymmetric: the state names of
the source are beta, phi, pb_2v, rb_2v and the input names are da, dr. -/
def Asymmetric.model (v : ℚ) (d : AsymmetricData) : StateSpace :=
  StateSpace.init (Asymmetric.build_a v d) (Asymmetric.build_b v d)
    ["beta", "phi", "pb_2v", "rb_2v"] ["da", "dr"]

/-- The two optional submodels held by an Aircraft instance. -/
structure AircraftModels where
  sym : Option StateSpace
  asym : Option StateSpace
deriving DecidableEq

/-- Embedding of the init method of class Aircraft on already-loaded data:
builds the symmetric model iff the symmetric block is present and the
asymmetric model iff the asymmetric block is present.  The source has no
branch for the neither-block case and raises nothing there. -/
def Aircraft.ofData (data : AircraftData) : AircraftModels :=
  { sym := data.symmetric.map (Symmetric.model data.v),
    asym := data.asymmetric.map (Asymmetric.model data.v) }

/-- The init of class Aircraft with its (empty) error channel made
explicit. -/
def Aircraft.ofDataE (data : AircraftData) : Except PyErr AircraftModels :=
  Except.ok (Aircraft.ofData data)

/-- Counterexample to claim C5 as stated: the state names of the source are
not [u_hat, alpha, theta, q] and not [beta, phi, p, r]. -/
theorem model_state_names_counterexample :
    (Symmetric.model 1 singularSymData).x_names ≠
      ["u_hat", "alpha", "theta", "q"] ∧
    (Asymmetric.model 1 singularAsymData).x_names ≠
      ["beta", "phi", "p", "r"] := by
  constructor <;> decide

/-- Claim C5, amended: for every data block the symmetric model has a 4 by
4 A, a 4 by 1 B, state names [u_hat, alpha, theta, q_cv] and input names
[de]; the asymmetric model has a 4 by 4 A, a 4 by 2 B, state names
[beta, phi, pb_2v, rb_2v] and input names [da, dr]. -/
theorem model_shapes_and_names (v : ℚ) (sd : SymmetricData)
    (ad : AsymmetricData) :
    ((Symmetric.model v sd).a).map List.length = [4, 4, 4, 4] ∧
    ((Symmetric.model v sd).b).map List.length = [1, 1, 1, 1] ∧
    (Symmetric.model v sd).x_names = ["u_hat", "alpha", "theta", "q_cv"] ∧
    (Symmetric.model v sd).u_names = ["de"] ∧
    ((Asymmetric.model v ad).a).map List.length = [4, 4, 4, 4] ∧
    ((Asymmetric.model v ad).b).map List.length = [2, 2, 2, 2] ∧
    (Asymmetric.model v ad).x_names = ["beta", "phi", "pb_2v", "rb_2v"] ∧
    (Asymmetric.model v ad).u_names = ["da", "dr"] :=
  ⟨rfl, rfl, rfl, rfl, rfl, rfl, rfl, rfl⟩

/-- Counterexample to claim C6 as stated: constructing from data with
neither block present does not fail with ConfigurationError. -/
theorem Aircraft.ofData_no_configurationError :
    Aircraft.ofDataE { v := 1, symmetric := none, asymmetric := none } ≠
      Except.error PyErr.configurationError :=
  fun h => Except.noConfusion h

/-- Claim C6, amended: constructing an Aircraft from data with neither
block present raises nothing and returns a degraded instance whose two
submodels are both absent. -/
theorem Aircraft.ofData_neither_block_returns_degraded (v : ℚ) :
    Aircraft.ofDataE { v := v, symmetric := none, asymmetric := none } =
      Except.ok { sym := none, asym := none } :=
  rfl

/-- Counterexample to claim C7 as stated: a duplicate state-name list is
accepted, no DimensionError is raised, and the instance is returned with
the duplicate list stored. -/
theorem StateSpace.init_duplicate_names_accepted :
    StateSpace.initE [[1, 0], [0, 1]] [[1], [0]] ["x", "x"] ["u"] ≠
      Except.error PyErr.dimensionError ∧
    (StateSpace.init [[1, 0], [0, 1]] [[1], [0]] ["x", "x"] ["u"]).x_names =
      ["x", "x"] :=
  ⟨fun h => Except.noConfusion h, rfl⟩

/-- Claim C7, amended: the constructor performs no validation and raises no
error of its own; on every construction it stores a and b unchanged and
derives c as the identity sized to the row count of a and d as the zero
matrix sized row count of a by column count of b. -/
theorem StateSpace.init_c_identity_d_zero (a b : Mat)
    (xn un : List String) :
    (StateSpace.init a b xn un).c = eyeM a.length ∧
    (StateSpace.init a b xn un).d = zerosM a.length ((b.getD 0 []).length) ∧
    (StateSpace.init a b xn un).a = a ∧
    (StateSpace.init a b xn un).b = b ∧
    (StateSpace.init a b xn un).x_names = xn ∧
    (StateSpace.init a b xn un).u_names = un :=
  ⟨rfl, rfl, rfl, rfl, rfl, rfl⟩

/-- The attributes of the environment object that the reward functions
read: the history of squared tracking errors, the history of action
vectors, and the reward scale.  The source indexes the error history with
-1; here that is the last element, with default 0 for the empty history
that the source never scores. -/
structure TrajectoryWindow where
  sq_error : List ℚ
  actions : List (List ℚ)
  reward_scale : ℚ
deriving DecidableEq

/-- The numpy expression sum of diff of the last two action vectors
squared: with at least two actions, the sum of squared per-component
differences of the last two; with fewer, the diff is empty and the sum
is 0. -/
def lastTwoDiffSq (actions : List (List ℚ)) : ℚ :=
  match actions.reverse with
  | a1 :: a2 :: _ => ((a1.zip a2).map (fun p => (p.1 - p.2) ^ 2)).sum
  | _ => 0

/-- Embedding of the static method sq_error of class Rewards: minus the
reward scale times the last squared tracking error. -/
def Rewards.sq_error (w : TrajectoryWindow) : ℚ :=
  - w.reward_scale * (w.sq_error.getLastD 0)

/-- Embedding of the static method sq_error_da of class Rewards: minus the
sum of the last squared tracking error and the squared action difference.
The reward scale is not read here. -/
def Rewards.sq_error_da (w : TrajectoryWindow) : ℚ :=
  - (w.sq_error.getLastD 0 + lastTwoDiffSq w.actions)

/-- Embedding of get_reward: returns the reward function for the two
recognized tags and raises ValueError with the message of the source for
every other tag. -/
def get_reward (reward_type : String) : Except PyErr (TrajectoryWindow → ℚ) :=
  if reward_type = "sq_error" then Except.ok Rewards.sq_error
  else if reward_type = "sq_error_da" then Except.ok Rewards.sq_error_da
  else Except.error
    (PyErr.valueError ("Reward type " ++ reward_type ++ " not found"))

/-- The score operation of the spec: look the tag up with get_reward and
apply the returned function to the window, as the external loop does. -/
def score (kind : String) (w : TrajectoryWindow) : Except PyErr ℚ :=
  (get_reward kind).map (fun f => f w)

/-- A window on which the missing reward scale in sq_error_da is visible:
scale 2, last squared error 1, identical last two actions. -/
def scaleTwoWindow : TrajectoryWindow :=
  { sq_error := [1], actions := [[0], [0]], reward_scale := 2 }

/-- Counterexample to claim C8 as stated: on scaleTwoWindow the claim
demands minus scale times error minus the action penalty, which is -2,
but the source returns -1 because sq_error_da never multiplies by the
reward scale. -/
theorem score_sq_error_da_scale_counterexample :
    score "sq_error_da" scaleTwoWindow = Except.ok (-1) ∧
    - scaleTwoWindow.reward_scale * (scaleTwoWindow.sq_error.getLastD 0) -
      lastTwoDiffSq scaleTwoWindow.actions = -2 ∧
    score "sq_error_da" scaleTwoWindow ≠
      Except.ok (- scaleTwoWindow.reward_scale *
        (scaleTwoWindow.sq_error.getLastD 0) -
        lastTwoDiffSq scaleTwoWindow.actions) := by
  have hsc : score "sq_error_da" scaleTwoWindow =
      Except.ok (Rewards.sq_error_da scaleTwoWindow) := rfl
  have hval : Rewards.sq_error_da scaleTwoWindow = -1 := by
    norm_num [Rewards.sq_error_da, lastTwoDiffSq, scaleTwoWindow,
      List.getLastD]
  refine ⟨by rw [hsc, hval], ?_, ?_⟩
  · norm_num [scaleTwoWindow, lastTwoDiffSq, List.getLastD]
  · rw [hsc, hval]
    intro h
    have hq := Except.ok.inj h
    norm_num [scaleTwoWindow, lastTwoDiffSq, List.getLastD] at hq

/-- Claim C8, amended: with a nonempty error history, score of sq_error
returns exactly minus scale times the last squared error, and score of
sq_error_da returns minus the sum of the last squared error and the
squared difference of the last two action vectors, with no scale factor
on either term. -/
theorem score_formulas (w : TrajectoryWindow) (h : w.sq_error ≠ []) :
    score "sq_error" w =
      Except.ok (- w.reward_scale * (w.sq_error.getLastD 0)) ∧
    score "sq_error_da" w =
      Except.ok (- (w.sq_error.getLastD 0 + lastTwoDiffSq w.actions)) :=
  ⟨rfl, rfl⟩

/-- Witness for the amended claim C8 at a concrete window. -/
theorem score_formulas_witness :
    (scaleTwoWindow.sq_error ≠ []) ∧
    score "sq_error" scaleTwoWindow =
      Except.ok (- scaleTwoWindow.reward_scale *
        (scaleTwoWindow.sq_error.getLastD 0)) ∧
    score "sq_error_da" scaleTwoWindow =
      Except.ok (- (scaleTwoWindow.sq_error.getLastD 0 +
        lastTwoDiffSq scaleTwoWindow.actions)) :=
  ⟨by simp [scaleTwoWindow],
   (score_formulas scaleTwoWindow (by simp [scaleTwoWindow])).1,
   (score_formulas scaleTwoWindow (by simp [scaleTwoWindow])).2⟩

/-- Counterexample to claim C9 as stated: an unrecognized tag does not
produce the UnknownRewardKind of the spec; the source raises ValueError. -/
theorem get_reward_unknown_not_unknownRewardKind :
    get_reward "unknown_kind" ≠ Except.error PyErr.unknownRewardKind := by
  have hval : get_reward "unknown_kind" =
      Except.error (PyErr.valueError "Reward type unknown_kind not found") :=
    rfl
  rw [hval]
  intro h
  exact PyErr.noConfusion (Except.error.inj h)

/-- Claim C9, amended: for every tag other than sq_error and sq_error_da,
get_reward fails with ValueError carrying the not-found message of the
source. -/
theorem get_reward_unknown_raises_valueError (t : String)
    (h1 : t ≠ "sq_error") (h2 : t ≠ "sq_error_da") :
    get_reward t =
      Except.error (PyErr.valueError ("Reward type " ++ t ++ " not found")) := by
  simp [get_reward, h1, h2]

/-- Witness for the amended claim C9 at the tag unknown_kind. -/
theorem get_reward_unknown_raises_valueError_witness :
    ("unknown_kind" ≠ "sq_error") ∧ ("unknown_kind" ≠ "sq_error_da") ∧
    get_reward "unknown_kind" =
      Except.error
        (PyErr.valueError ("Reward type " ++ "unknown_kind" ++ " not found")) :=
  ⟨by decide, by decide,
   get_reward_unknown_raises_valueError "unknown_kind" (by decide) (by decide)⟩

/-- The squared action difference is a sum of squares, hence nonnegative. -/
theorem lastTwoDiffSq_nonneg (actions : List (List ℚ)) :
    0 ≤ lastTwoDiffSq actions := by
  unfold lastTwoDiffSq
  cases hrev : actions.reverse with
  | nil => norm_num
  | cons a1 tl =>
    cases tl with
    | nil => norm_num
    | cons a2 tl2 =>
      apply List.sum_nonneg
      intro x hx
      obtain ⟨p, _, hp⟩ := List.mem_map.mp hx
      rw [← hp]
      positivity

/-- A window with zero reward scale and nonzero last squared error: the
sq_error reward is zero although the tracking error is not. -/
def zeroScaleWindow : TrajectoryWindow :=
  { sq_error := [1], actions := [[0], [0]], reward_scale := 0 }

/-- Counterexample to claim C10 as stated: with a nonnegative (zero) scale
the sq_error reward attains zero at a nonzero tracking error. -/
theorem sq_error_zero_scale_counterexample :
    0 ≤ zeroScaleWindow.reward_scale ∧
    0 ≤ zeroScaleWindow.sq_error.getLastD 0 ∧
    Rewards.sq_error zeroScaleWindow = 0 ∧
    zeroScaleWindow.sq_error.getLastD 0 ≠ 0 := by
  refine ⟨?_, ?_, ?_, ?_⟩ <;>
    norm_num [Rewards.sq_error, zeroScaleWindow, List.getLastD]

/-- Claim C10, amended: with nonnegative last squared error and
nonnegative scale both rewards are nonpositive; sq_error attains zero only
at zero tracking error provided the scale is positive, and sq_error_da
(which ignores the scale) attains zero only at zero tracking error and
zero squared action difference. -/
theorem rewards_nonpositive (w : TrajectoryWindow)
    (h1 : 0 ≤ w.sq_error.getLastD 0) (h2 : 0 ≤ w.reward_scale) :
    Rewards.sq_error w ≤ 0 ∧ Rewards.sq_error_da w ≤ 0 ∧
    (0 < w.reward_scale → Rewards.sq_error w = 0 →
      w.sq_error.getLastD 0 = 0) ∧
    (Rewards.sq_error_da w = 0 →
      w.sq_error.getLastD 0 = 0 ∧ lastTwoDiffSq w.actions = 0) := by
  have hd := lastTwoDiffSq_nonneg w.actions
  unfold Rewards.sq_error Rewards.sq_error_da
  refine ⟨by nlinarith, by nlinarith, ?_, ?_⟩
  · intro hs h0
    rw [neg_mul, neg_eq_zero] at h0
    rcases mul_eq_zero.mp h0 with h | h
    · exact absurd h (ne_of_gt hs)
    · exact h
  · intro h0
    constructor <;> nlinarith

/-- Witness for the amended claim C10 at a concrete window with scale 2,
last squared error 1 and unequal last two actions. -/
theorem rewards_nonpositive_witness :
    (0 ≤ scaleTwoWindow.sq_error.getLastD 0) ∧
    (0 ≤ scaleTwoWindow.reward_scale) ∧
    (Rewards.sq_error scaleTwoWindow ≤ 0 ∧
      Rewards.sq_error_da scaleTwoWindow ≤ 0 ∧
      (0 < scaleTwoWindow.reward_scale → Rewards.sq_error scaleTwoWindow = 0 →
        scaleTwoWindow.sq_error.getLastD 0 = 0) ∧
      (Rewards.sq_error_da scaleTwoWindow = 0 →
        scaleTwoWindow.sq_error.getLastD 0 = 0 ∧
        lastTwoDiffSq scaleTwoWindow.actions = 0)) :=
  ⟨by norm_num [scaleTwoWindow, List.getLastD],
   by norm_num [scaleTwoWindow],
   rewards_nonpositive scaleTwoWindow
     (by norm_num [scaleTwoWindow, List.getLastD])
     (by norm_num [scaleTwoWindow])⟩
